import Mathlib

/-!
Shallow embedding of `src/index.js` of the dawn-auto-login repository.

The repository holds four evolving variants of one script, concatenated in
`src/index.js` (separated by document markers).  Pure computations are
translated directly.  Network calls, the captcha solver and console input are
modelled by explicit environments: a field of type `Nat → Except String α`
gives the outcome the outside world produces for the k-th try of a fallible
call (`Except.error` is a thrown exception or non-ok HTTP response,
`Except.ok` a parsed response).  File appends, sleeps and status notifications
are modelled by explicit traces accumulated in the returned state.
-/

/-- Bound on sub-request retries, `const MAX_RETRIES = 3` (lines 21, 365, 646,
1004 of src/index.js). -/
def MAX_RETRIES : Nat := 3

/-- Bound on whole-login retries in the proxy variant, `const LOGIN_RETRIES = 3`
(line 647). -/
def LOGIN_RETRIES : Nat := 3

/-- Base delay of the unbounded retry policy, `const INITIAL_RETRY_DELAY = 5000`
(line 1006).  Delays are modelled as exact rationals. -/
def INITIAL_RETRY_DELAY : ℚ := 5000

/-- The alphabet string `const hexDigits = '0123456789abcdef'` used by
`generateAppId` (line 42). -/
def hexDigits : String := "0123456789abcdef"

/-- Indexing `hexDigits[k]` for `k = Math.floor(Math.random() * 16)`, which is
always in range. -/
def hexChar (k : Fin 16) : Char :=
  hexDigits.toList.get (Fin.cast (by decide) k)

/-- Character-list form of `generateAppId` (lines 41-48): starts from the
literal `'67'` and appends 22 pseudo-random hex digits; `rand i` models the
value `Math.floor(Math.random() * 16)` drawn at loop iteration `i`. -/
def generateAppIdChars (rand : Nat → Fin 16) : List Char :=
  (List.range 22).foldl (fun acc i => acc ++ [hexChar (rand i)]) ['6', '7']

/-- The session identity generator `generateAppId` (lines 41-48). -/
def generateAppId (rand : Nat → Fin 16) : String :=
  String.mk (generateAppIdChars rand)

/-- Result of `getProxyAgent` (lines 676-686): no proxy (`null`, direct
connection), a SOCKS agent, or an HTTPS agent. -/
inductive ProxyAgent where
  | direct : ProxyAgent
  | socks (uri : String) : ProxyAgent
  | https (uri : String) : ProxyAgent
  deriving DecidableEq

/-- The module-global proxy state of the proxy variant:
`useProxies`, `proxyList`, `currentProxyIndex` (lines 648-650). -/
structure ProxyState where
  useProxies : Bool
  proxyList : List String
  currentProxyIndex : Nat
  deriving DecidableEq

/-- Model of the JavaScript `s.startsWith(p)` test: the characters of `p`
lead the characters of `s`. -/
def jsStartsWith (s p : String) : Bool :=
  p.toList.isPrefixOf s.toList

/-- Agent construction from a proxy URI (lines 682-685): a URI whose text
starts with `socks` yields a SOCKS agent, anything else an HTTPS agent. -/
def mkProxyAgent (proxy : String) : ProxyAgent :=
  if jsStartsWith proxy "socks" then ProxyAgent.socks proxy
  else ProxyAgent.https proxy

/-- The proxy rotator `getProxyAgent` (lines 676-686).  Returns the chosen
agent together with the updated module state.  The out-of-range branch of the
lookup is unreachable: the cursor starts at 0 and is only ever assigned values
reduced modulo the pool length. -/
def getProxyAgent (s : ProxyState) : ProxyAgent × ProxyState :=
  if !s.useProxies || s.proxyList.length == 0 then (ProxyAgent.direct, s)
  else
    match s.proxyList.get? s.currentProxyIndex with
    | some proxy =>
        (mkProxyAgent proxy,
         { s with currentProxyIndex := (s.currentProxyIndex + 1) % s.proxyList.length })
    | none => (ProxyAgent.direct, s)

/-- M sequential calls to the rotator, collecting the returned agents. -/
def runProxyCalls : ProxyState → Nat → List ProxyAgent × ProxyState
  | s, 0 => ([], s)
  | s, m + 1 =>
    let p := getProxyAgent s
    let r := runProxyCalls p.2 m
    (p.1 :: r.1, r.2)

/-- The `referralPoint` object of the points response (line 202):
`commission` may be absent. -/
structure ReferralPoint where
  commission : Option Int
  deriving DecidableEq

/-- The `rewardPoint` object of the points response (lines 202-209): all five
numeric sub-fields may be absent. -/
structure RewardPoint where
  points : Option Int
  registerpoints : Option Int
  twitter_x_id_points : Option Int
  discordid_points : Option Int
  telegramid_points : Option Int
  deriving DecidableEq

/-- The `data` object of the points response: `referralPoint` and
`rewardPoint` may each be absent. -/
structure PointsData where
  referralPoint : Option ReferralPoint
  rewardPoint : Option RewardPoint
  deriving DecidableEq

/-- A parsed points response body: `success` flag plus `data`. -/
structure PointsResponse where
  success : Bool
  data : PointsData
  deriving DecidableEq

/-- The summation of `getUserPoints` (lines 203-210).  The JavaScript
`referralPoint?.commission || 0` (optional chaining plus or-default) is
modelled as `(·.bind ·).getD 0`; addition is left-associated as in the
source. -/
def totalPoints (d : PointsData) : Int :=
  (d.referralPoint.bind ReferralPoint.commission).getD 0 +
  (d.rewardPoint.bind RewardPoint.points).getD 0 +
  (d.rewardPoint.bind RewardPoint.registerpoints).getD 0 +
  (d.rewardPoint.bind RewardPoint.twitter_x_id_points).getD 0 +
  (d.rewardPoint.bind RewardPoint.discordid_points).getD 0 +
  (d.rewardPoint.bind RewardPoint.telegramid_points).getD 0

/-- The single-try `getUserPoints` of the non-proxy variants (lines 182-219,
476-510, 1186-1221): on a thrown error returns 0, on `success: false`
returns 0, otherwise returns the field sum.  It never throws. -/
def getUserPointsOnce (resp : Except String PointsResponse) : Int :=
  match resp with
  | Except.error _ => 0
  | Except.ok r => if r.success then totalPoints r.data else 0

/-- Common shape of the bounded sub-request retry loops
(`for (let attempt = 1; attempt <= MAX_RETRIES; attempt++)`).  `attempt` is
the source loop counter; the structural recursion runs on `rest`, the number
of attempts still allowed after the current one (`rest = MAX_RETRIES -
attempt`, so `rest = 0` is the final attempt, whose failure produces the
wrapped error).  `env k` is the outcome of the k-th try; the returned list
collects the sleeps (in ms, `delayStep * attempt`) taken between attempts. -/
def boundedRetryGo (msgPre : String) (delayStep : Nat)
    (env : Nat → Except String α) (attempt : Nat) (delays : List Nat) :
    Nat → Except String α × List Nat
  | 0 =>
    match env attempt with
    | Except.ok v => (Except.ok v, delays)
    | Except.error e => (Except.error (msgPre ++ e), delays)
  | rest + 1 =>
    match env attempt with
    | Except.ok v => (Except.ok v, delays)
    | Except.error _ =>
        boundedRetryGo msgPre delayStep env (attempt + 1)
          (delays ++ [delayStep * attempt]) rest

/-- `getPuzzleId` of the proxy variant (lines 711-740): up to 3 attempts,
sleeping `1000 * attempt` ms between attempts, wrapping the final error. -/
def getPuzzleIdRun (env : Nat → Except String String) :
    Except String String × List Nat :=
  boundedRetryGo "Failed to get puzzle ID after 3 attempts: " 1000 env 1 []
    (MAX_RETRIES - 1)

/-- `getPuzzleImage` of the proxy variant (lines 743-772): same policy as
`getPuzzleId`. -/
def getPuzzleImageRun (env : Nat → Except String String) :
    Except String String × List Nat :=
  boundedRetryGo "Failed to get puzzle image after 3 attempts: " 1000 env 1 []
    (MAX_RETRIES - 1)

/-- `processCaptcha` of the proxy variant (lines 775-802): up to 3 attempts,
sleeping `2000 * attempt` ms between attempts, wrapping the final error. -/
def processCaptchaRunV3 (env : Nat → Except String String) :
    Except String String × List Nat :=
  boundedRetryGo "Failed to solve captcha after 3 attempts: " 2000 env 1 []
    (MAX_RETRIES - 1)

/-- The retried `getUserPoints` of the proxy variant (lines 805-851).  Unlike
the other three loops, the failure of the final attempt does not rethrow: it
logs and `return 0` (lines 843-845).  A response with `success` false also
returns 0 without retrying.  The function therefore never throws; its result
is still typed `Except` to record that the error constructor is never
produced. -/
def getUserPointsGo (env : Nat → Except String PointsResponse) (attempt : Nat)
    (delays : List Nat) : Nat → Except String Int × List Nat
  | 0 =>
    match env attempt with
    | Except.ok r => (Except.ok (if r.success then totalPoints r.data else 0), delays)
    | Except.error _ => (Except.ok 0, delays)
  | rest + 1 =>
    match env attempt with
    | Except.ok r => (Except.ok (if r.success then totalPoints r.data else 0), delays)
    | Except.error _ =>
        getUserPointsGo env (attempt + 1) (delays ++ [1000 * attempt]) rest

/-- Entry point of the retried `getUserPoints` (proxy variant). -/
def getUserPointsRun (env : Nat → Except String PointsResponse) :
    Except String Int × List Nat :=
  getUserPointsGo env 1 [] (MAX_RETRIES - 1)

/-- A parsed login response of the status-checked variants (v1 and proxy
variant): `ok` is `loginResponse.ok` (HTTP success flag), `token` is
`loginResult.data.token` (absent when the body has no `data.token`), and
`message` is `loginResult.message`. -/
structure LoginResp where
  ok : Bool
  token : Option String
  message : Option String
  deriving DecidableEq

/-- Environment of one login attempt of the proxy variant (lines 854-917):
per-sub-operation outcome streams (consumed by the bounded retry loops) plus
the outcome of the login POST itself. -/
structure AttemptEnvV3 where
  puzzleId : Nat → Except String String
  puzzleImage : Nat → Except String String
  captcha : Nat → Except String String
  login : Except String LoginResp
  points : Nat → Except String PointsResponse

/-- The body of one login attempt of the proxy variant (lines 859-905): the
`try` block sequencing puzzle id, puzzle image, captcha, login POST and
points.  An `Except.error` is an exception reaching the surrounding `catch`.
Reading `loginResult.data.token` when the body carries no data throws a
TypeError, which the same `catch` receives.  A non-ok response throws
`loginResult.message || 'Unknown error'` (line 904). -/
def attemptRunV3 (env : AttemptEnvV3) : Except String (String × Int) :=
  match (getPuzzleIdRun env.puzzleId).1 with
  | Except.error e => Except.error e
  | Except.ok _pid =>
    match (getPuzzleImageRun env.puzzleImage).1 with
    | Except.error e => Except.error e
    | Except.ok _img =>
      match (processCaptchaRunV3 env.captcha).1 with
      | Except.error e => Except.error e
      | Except.ok _ans =>
        match env.login with
        | Except.error e => Except.error e
        | Except.ok resp =>
          if resp.ok then
            match resp.token with
            | none => Except.error "TypeError: cannot read token of undefined"
            | some tok =>
              match (getUserPointsRun env.points).1 with
              | Except.error e => Except.error e
              | Except.ok pts => Except.ok (tok, pts)
          else
            Except.error (resp.message.getD "Unknown error")

/-- Observable bookkeeping of one account processed by a login orchestrator:
how many login attempts ran, the lines appended to `successful_logins.txt`
and to `failed_logins.txt`, and the sleeps (ms) between login attempts. -/
structure RunLog where
  attempts : Nat
  successLines : List String
  failLines : List String
  loginDelays : List Nat
  deriving DecidableEq

/-- The retry loop of `loginAccount` in the proxy variant (lines 855-916):
`for (let loginAttempt = 1; loginAttempt <= LOGIN_RETRIES; loginAttempt++)`.
`attempt` is the source counter, the structural recursion runs on `rest`
(`rest = LOGIN_RETRIES - attempt`; `rest = 0` is the final attempt, whose
failure appends to the failure log and returns false).  Success appends
`email:password:token:points` (line 901) and returns true; a non-final
failure sleeps `5000 * attempt` ms (line 914) and retries. -/
def loginAccountV3Go (email password : String) (env : Nat → AttemptEnvV3)
    (attempt : Nat) (log : RunLog) : Nat → Bool × RunLog
  | 0 =>
    match attemptRunV3 (env attempt) with
    | Except.ok (tok, pts) =>
        (true, { log with
                 attempts := log.attempts + 1
                 successLines := log.successLines ++
                   [email ++ ":" ++ password ++ ":" ++ tok ++ ":" ++ toString pts] })
    | Except.error _ =>
        (false, { log with
                  attempts := log.attempts + 1
                  failLines := log.failLines ++ [email ++ ":" ++ password] })
  | rest + 1 =>
    match attemptRunV3 (env attempt) with
    | Except.ok (tok, pts) =>
        (true, { log with
                 attempts := log.attempts + 1
                 successLines := log.successLines ++
                   [email ++ ":" ++ password ++ ":" ++ tok ++ ":" ++ toString pts] })
    | Except.error _ =>
        loginAccountV3Go email password env (attempt + 1)
          { log with
            attempts := log.attempts + 1
            loginDelays := log.loginDelays ++ [5000 * attempt] } rest

/-- `loginAccount` of the proxy variant (lines 854-917), from attempt 1 with
empty bookkeeping. -/
def loginAccountV3 (email password : String) (env : Nat → AttemptEnvV3) :
    Bool × RunLog :=
  loginAccountV3Go email password env 1 ⟨0, [], [], []⟩ (LOGIN_RETRIES - 1)

/-- Environment of the single login attempt of the first variant
(lines 222-276): the captcha solver and the points query are called once, the
puzzle fetches are retried. -/
structure AttemptEnvV1 where
  puzzleId : Nat → Except String String
  puzzleImage : Nat → Except String String
  captcha : Except String String
  login : Except String LoginResp
  points : Except String PointsResponse

/-- The `try` block of `loginAccount` in the first variant (lines 226-270). -/
def attemptRunV1 (env : AttemptEnvV1) : Except String (String × Int) :=
  match (getPuzzleIdRun env.puzzleId).1 with
  | Except.error e => Except.error e
  | Except.ok _pid =>
    match (getPuzzleImageRun env.puzzleImage).1 with
    | Except.error e => Except.error e
    | Except.ok _img =>
      match env.captcha with
      | Except.error e => Except.error e
      | Except.ok _ans =>
        match env.login with
        | Except.error e => Except.error e
        | Except.ok resp =>
          if resp.ok then
            match resp.token with
            | none => Except.error "TypeError: cannot read token of undefined"
            | some tok => Except.ok (tok, getUserPointsOnce env.points)
          else
            Except.error (resp.message.getD "Unknown error")

/-- `loginAccount` of the first variant (lines 222-276): one attempt; success
appends `email:token` (line 266), any failure appends `email:password`
(line 273). -/
def loginAccountV1 (email password : String) (env : AttemptEnvV1) :
    Bool × RunLog :=
  match attemptRunV1 env with
  | Except.ok (tok, _pts) => (true, ⟨1, [email ++ ":" ++ tok], [], []⟩)
  | Except.error _ => (false, ⟨1, [], [email ++ ":" ++ password], []⟩)

/-- Character-list whitespace trim, the model of JavaScript
`String.prototype.trim` used throughout the embedding. -/
def trimCh (l : List Char) : List Char :=
  ((l.dropWhile Char.isWhitespace).reverse.dropWhile Char.isWhitespace).reverse

/-- String form of `trimCh`. -/
def strTrim (s : String) : String :=
  String.mk (trimCh s.toList)

/-- Captcha backend selection of the fourth variant (line 1338-1340). -/
inductive SolverModelV4 where
  | twocaptcha : SolverModelV4
  | gemini : SolverModelV4
  | telegram : SolverModelV4
  | manual : SolverModelV4
  deriving DecidableEq

/-- Environment of one `processCaptcha` call of the fourth variant: the
outcome of `saveCaptchaImage`, the text typed at the manual prompt, the
operator reply relayed by the chat bot (`none` is the 2-minute timeout), and
the raw results of the hosted-service and vision-model backends. -/
structure SolverEnvV4 where
  save : Except String Unit
  manualInput : String
  telegramReply : Option String
  twocaptchaResult : Except String String
  geminiText : Except String String

/-- `processCaptcha` of the fourth variant (lines 1128-1184).  The manual
backend returns the prompt text verbatim (line 1133); the chat-relay backend
returns `msg.text.trim()` (line 1152) or times out; the hosted-service
backend returns `result.data` verbatim (line 1168); the vision-model backend
returns `result.response.text().trim()` (line 1176).  Any caught error is
rewrapped with the `Failed to solve captcha: ` text (line 1182). -/
def processCaptchaV4 (m : SolverModelV4) (env : SolverEnvV4) :
    Except String String :=
  match m with
  | SolverModelV4.manual =>
    match env.save with
    | Except.error e => Except.error ("Failed to solve captcha: " ++ e)
    | Except.ok _ => Except.ok env.manualInput
  | SolverModelV4.telegram =>
    match env.save with
    | Except.error e => Except.error ("Failed to solve captcha: " ++ e)
    | Except.ok _ =>
      match env.telegramReply with
      | none => Except.error "Failed to solve captcha: Captcha solving timeout"
      | some t => Except.ok (strTrim t)
  | SolverModelV4.twocaptcha =>
    match env.twocaptchaResult with
    | Except.error e => Except.error ("Failed to solve captcha: " ++ e)
    | Except.ok d => Except.ok d
  | SolverModelV4.gemini =>
    match env.save with
    | Except.error e => Except.error ("Failed to solve captcha: " ++ e)
    | Except.ok _ =>
      match env.geminiText with
      | Except.error e => Except.error ("Failed to solve captcha: " ++ e)
      | Except.ok t => Except.ok (strTrim t)

/-- Captcha backend selection of the first variant (lines 308-309). -/
inductive SolverModelV1 where
  | twocaptcha : SolverModelV1
  | anticaptcha : SolverModelV1
  | manual : SolverModelV1
  deriving DecidableEq

/-- Environment of one `processCaptcha` call of the first variant. -/
structure SolverEnvV1 where
  save : Except String Unit
  manualInput : String
  twocaptchaResult : Except String String
  anticaptchaResult : Except String String

/-- `processCaptcha` of the first variant (lines 148-179): manual returns the
prompt text verbatim (line 156), the two service backends return the solver
result verbatim (lines 167, 170); a caught error is rethrown (line 177). -/
def processCaptchaV1 (m : SolverModelV1) (env : SolverEnvV1) :
    Except String String :=
  match m with
  | SolverModelV1.manual =>
    match env.save with
    | Except.error e => Except.error e
    | Except.ok _ => Except.ok env.manualInput
  | SolverModelV1.twocaptcha => env.twocaptchaResult
  | SolverModelV1.anticaptcha => env.anticaptchaResult

/-- A parsed login response of the fourth variant (lines 1267-1284), whose
success test is the exact message string, not the HTTP status. -/
structure LoginRespV4 where
  message : Option String
  token : Option String
  deriving DecidableEq

/-- Environment of one login attempt of the fourth variant
(lines 1237-1284). -/
structure AttemptEnvV4 where
  puzzleId : Nat → Except String String
  puzzleImage : Nat → Except String String
  solverModel : SolverModelV4
  solverEnv : SolverEnvV4
  login : Except String LoginRespV4
  points : Except String PointsResponse

/-- The `try` block of one attempt of `loginAccountWithRetry`
(lines 1237-1284): puzzle id, puzzle image, captcha, login POST, then the
exact-string success test `loginResult.message === 'Successfully logged in!'`
(line 1270); on success the token is read (a missing `data` throws into the
same `catch`) and the single-try points query runs; otherwise
`loginResult.message || 'Unknown error'` is thrown (line 1283). -/
def attemptRunV4 (env : AttemptEnvV4) : Except String (String × Int) :=
  match (getPuzzleIdRun env.puzzleId).1 with
  | Except.error e => Except.error e
  | Except.ok _pid =>
    match (getPuzzleImageRun env.puzzleImage).1 with
    | Except.error e => Except.error e
    | Except.ok _img =>
      match processCaptchaV4 env.solverModel env.solverEnv with
      | Except.error e => Except.error e
      | Except.ok _ans =>
        match env.login with
        | Except.error e => Except.error e
        | Except.ok resp =>
          if resp.message = some "Successfully logged in!" then
            match resp.token with
            | none => Except.error "TypeError: cannot read token of undefined"
            | some tok => Except.ok (tok, getUserPointsOnce env.points)
          else
            Except.error (resp.message.getD "Unknown error")

/-- One status notification handed to `sendTelegramStatus` by
`loginAccountWithRetry`: the attempt-start, success, failure and
waiting-before-retry messages (lines 1235, 1277, 1289, 1295). -/
inductive NotifV4 where
  | attemptStart (k : Nat) : NotifV4
  | succeeded (k : Nat) (points : Int) : NotifV4
  | failed (k : Nat) : NotifV4
  | waiting (k : Nat) : NotifV4
  deriving DecidableEq

/-- Observable bookkeeping of `loginAccountWithRetry`: result-log lines,
sleeps between attempts (ms, exact rationals) and the emitted status
notifications in order. -/
structure TraceV4 where
  successLines : List String
  failLines : List String
  delaysMs : List ℚ
  notifs : List NotifV4
  deriving DecidableEq

/-- `calculateRetryDelay` (lines 1224-1226):
`INITIAL_RETRY_DELAY * Math.pow(1.5, attempt - 1)`, over exact rationals. -/
def calculateRetryDelay (attempt : Nat) : ℚ :=
  INITIAL_RETRY_DELAY * (3 / 2 : ℚ) ^ (attempt - 1)

/-- The unbounded `while (true)` loop of `loginAccountWithRetry`
(lines 1229-1302).  `attempt` is the source counter `loginAttempt`; `fuel`
bounds how many loop iterations the model may unfold (`none` means the loop
was still running when the fuel ran out — the source loop has no exit other
than success).  Each iteration notifies the attempt start; success appends
`email:token` (line 1280) and notifies; failure notifies, computes
`calculateRetryDelay (attempt)`, notifies the wait, sleeps and retries with
`attempt + 1`. -/
def loginAccountWithRetryGo (email password : String)
    (env : Nat → AttemptEnvV4) (attempt : Nat) (tr : TraceV4) :
    Nat → Option (Bool × TraceV4)
  | 0 => none
  | fuel + 1 =>
    let tr1 := { tr with notifs := tr.notifs ++ [NotifV4.attemptStart attempt] }
    match attemptRunV4 (env attempt) with
    | Except.ok (tok, pts) =>
        some (true, { tr1 with
          notifs := tr1.notifs ++ [NotifV4.succeeded attempt pts]
          successLines := tr1.successLines ++ [email ++ ":" ++ tok] })
    | Except.error _ =>
        loginAccountWithRetryGo email password env (attempt + 1)
          { tr1 with
            notifs := tr1.notifs ++ [NotifV4.failed attempt, NotifV4.waiting attempt]
            delaysMs := tr1.delaysMs ++ [calculateRetryDelay attempt] } fuel

/-- Observable bookkeeping of the batch runner `main` loop: which accounts
were handed to the orchestrator (by identifier, in order), the aggregate
counters, and the inter-account sleeps (ms). -/
structure BatchLog where
  processed : List String
  successful : Nat
  failed : Nat
  pauses : List Nat
  deriving DecidableEq

/-- The account loop of `main` in the first three variants (lines 331-336,
610-615, 966-971): strictly sequential; `orc cred` is the boolean outcome of
`loginAccount`; the 2000 ms sleep runs after every account, the last
included. -/
def batchGoV1 (orc : String × String → Bool) :
    List (String × String) → BatchLog → BatchLog
  | [], log => log
  | cred :: rest, log =>
    let r := orc cred
    batchGoV1 orc rest
      { log with
        processed := log.processed ++ [cred.1]
        successful := log.successful + (if r then 1 else 0)
        failed := log.failed + (if r then 0 else 1)
        pauses := log.pauses ++ [2000] }

/-- Batch run of the first three variants, from empty bookkeeping. -/
def batchRunV1 (creds : List (String × String))
    (orc : String × String → Bool) : BatchLog :=
  batchGoV1 orc creds ⟨[], 0, 0, []⟩

/-- The account loop of `main` in the fourth variant (lines 1382-1393):
strictly sequential; the 2000 ms sleep runs only when
`index < credentials.length - 1` (line 1390).  `idx` is the source `index`,
`total` is `credentials.length`. -/
def batchGoV4 (orc : String × String → Bool) (total : Nat) :
    Nat → List (String × String) → BatchLog → BatchLog
  | _, [], log => log
  | idx, cred :: rest, log =>
    let r := orc cred
    let log1 := { log with
      processed := log.processed ++ [cred.1]
      successful := log.successful + (if r then 1 else 0)
      failed := log.failed + (if r then 0 else 1) }
    let log2 := if idx < total - 1
      then { log1 with pauses := log1.pauses ++ [2000] }
      else log1
    batchGoV4 orc total (idx + 1) rest log2

/-- Batch run of the fourth variant, from empty bookkeeping. -/
def batchRunV4 (creds : List (String × String))
    (orc : String × String → Bool) : BatchLog :=
  batchGoV4 orc creds.length 0 creds ⟨[], 0, 0, []⟩

/-- Splitting a character list at every occurrence of `sep`, the model of
JavaScript `String.prototype.split` with a one-character separator (used with
a newline in `readCredentials`, line 283, and with a colon in line 287). -/
def splitCh (sep : Char) : List Char → List (List Char)
  | [] => [[]]
  | c :: cs =>
    if c = sep then [] :: splitCh sep cs
    else
      match splitCh sep cs with
      | [] => [[c]]
      | p :: ps => (c :: p) :: ps

/-- The per-line destructuring of `readCredentials` (lines 287-288):
`const [email, password] = line.split(':')` takes the first two split parts
(the second exists whenever the line contains a colon), then trims each. -/
def parseCredLine (l : List Char) : List Char × List Char :=
  let parts := splitCh ':' l
  (trimCh (parts.headD []), trimCh (parts.getD 1 []))

/-- The parsing pipeline of `readCredentials` (lines 283-289), identical in
all four variants: split into lines, trim each, keep only lines containing a
colon, destructure each kept line.  The file read itself is an external
effect outside this model. -/
def readCredentials (content : List Char) : List (List Char × List Char) :=
  ((((splitCh '\n' content).map trimCh).filter
      (fun l => l.contains ':')).map parseCredLine)

/-- Modelled from the spec wording of C10, for comparison with
`readCredentials`: a line with no colon is dropped; otherwise the identifier
is the trimmed text before the first colon and the secret is the trimmed text
between the first and the second colon. -/
def specCredLine (raw : List Char) : Option (List Char × List Char) :=
  let l := trimCh raw
  if l.contains ':' then
    some (trimCh (l.takeWhile (fun c => c != ':')),
          trimCh (((l.dropWhile (fun c => c != ':')).tail).takeWhile
            (fun c => c != ':')))
  else none

/-- Modelled from the spec wording of C5, for comparison with `totalPoints`:
the list of the six optional numeric sub-fields of a points response. -/
def presentPointFields (d : PointsData) : List (Option Int) :=
  [d.referralPoint.bind ReferralPoint.commission,
   d.rewardPoint.bind RewardPoint.points,
   d.rewardPoint.bind RewardPoint.registerpoints,
   d.rewardPoint.bind RewardPoint.twitter_x_id_points,
   d.rewardPoint.bind RewardPoint.discordid_points,
   d.rewardPoint.bind RewardPoint.telegramid_points]

/-- An always-failing sub-request outcome stream (network down). -/
def subFailEnv : Nat → Except String String :=
  fun _ => Except.error "net down"

/-- A sub-request outcome stream failing on the first try and succeeding on
the second. -/
def subOkAt2Env : Nat → Except String String :=
  fun k => if k = 1 then Except.error "net down" else Except.ok "P-123"

/-- An always-failing points-query outcome stream. -/
def pointsFailEnv : Nat → Except String PointsResponse :=
  fun _ => Except.error "HTTP error! status: 500"

/-- A login attempt environment of the proxy variant in which even the first
sub-request never succeeds. -/
def attemptFailEnvV3 : AttemptEnvV3 :=
  { puzzleId := subFailEnv
    puzzleImage := subFailEnv
    captcha := subFailEnv
    login := Except.error "net down"
    points := pointsFailEnv }

/-- The proxy-variant account environment in which every attempt fails. -/
def envAllFailV3 : Nat → AttemptEnvV3 :=
  fun _ => attemptFailEnvV3

/-- A proxy-variant account environment in which everything up to the login
succeeds but the points query always fails. -/
def envPointsDownV3 : Nat → AttemptEnvV3 :=
  fun _ =>
    { puzzleId := fun _ => Except.ok "P-1"
      puzzleImage := fun _ => Except.ok "IMG"
      captcha := fun _ => Except.ok "1234"
      login := Except.ok ⟨true, some "TOK", none⟩
      points := pointsFailEnv }

/-- A first-variant attempt environment that fails at the puzzle fetch. -/
def envFailV1 : AttemptEnvV1 :=
  { puzzleId := subFailEnv
    puzzleImage := subFailEnv
    captcha := Except.error "net down"
    login := Except.error "net down"
    points := Except.error "net down" }

/-- A solver environment whose manual prompt answer is already trimmed. -/
def solverEnvOkManual : SolverEnvV4 :=
  { save := Except.ok ()
    manualInput := "1234"
    telegramReply := none
    twocaptchaResult := Except.error "unused"
    geminiText := Except.error "unused" }

/-- A solver environment whose manual prompt answer carries surrounding
whitespace. -/
def manualEnvUntrimmed : SolverEnvV4 :=
  { save := Except.ok ()
    manualInput := " 1234 "
    telegramReply := none
    twocaptchaResult := Except.error "unused"
    geminiText := Except.error "unused" }

/-- A first-variant solver environment with concrete backend answers. -/
def solverEnvV1W : SolverEnvV1 :=
  { save := Except.ok ()
    manualInput := "1234"
    twocaptchaResult := Except.ok "9876"
    anticaptchaResult := Except.ok "5678" }

/-- A fourth-variant attempt environment that fails at the puzzle fetch. -/
def attemptFailEnvV4 : AttemptEnvV4 :=
  { puzzleId := subFailEnv
    puzzleImage := subFailEnv
    solverModel := SolverModelV4.manual
    solverEnv := solverEnvOkManual
    login := Except.error "net down"
    points := Except.error "net down" }

/-- A fourth-variant attempt environment in which the login succeeds with the
exact success message (and the points query fails, yielding 0 points). -/
def attemptOkEnvV4 : AttemptEnvV4 :=
  { puzzleId := fun _ => Except.ok "P-1"
    puzzleImage := fun _ => Except.ok "IMG"
    solverModel := SolverModelV4.manual
    solverEnv := solverEnvOkManual
    login := Except.ok ⟨some "Successfully logged in!", some "TOK"⟩
    points := Except.error "net down" }

/-- A fourth-variant account environment failing on attempt 1 and succeeding
on every later attempt. -/
def envSecondTryV4 : Nat → AttemptEnvV4 :=
  fun k => if k = 1 then attemptFailEnvV4 else attemptOkEnvV4

/-- A two-entry proxy pool: one HTTP proxy, one SOCKS proxy. -/
def poolW : List String := ["http://p1:8080", "socks5://p2:1080"]

theorem sum_filterMap_id (l : List (Option Int)) :
    (l.filterMap id).sum = (l.map (fun o => o.getD 0)).sum := by
  induction l with
  | nil => rfl
  | cons o rest ih => cases o <;> simp [ih]

theorem totalPoints_eq_sum_present (d : PointsData) :
    totalPoints d = ((presentPointFields d).filterMap id).sum := by
  rw [sum_filterMap_id]
  simp only [presentPointFields, List.map_cons, List.map_nil, List.sum_cons,
    List.sum_nil, totalPoints]
  ring

/-- C5: for any subset of the six optional numeric sub-fields present in the
points response (the others absent), the points query returns exactly the sum
of the present fields, treating each absent field as zero — both in the
single-try form and in the retried form of the proxy variant (which succeeds
on the first try with no sleeps). -/
theorem points_query_sums_present_fields (d : PointsData) :
    getUserPointsOnce (Except.ok ⟨true, d⟩) =
      ((presentPointFields d).filterMap id).sum ∧
    getUserPointsRun (fun _ => Except.ok ⟨true, d⟩) =
      (Except.ok (((presentPointFields d).filterMap id).sum), []) := by
  constructor
  · simp [getUserPointsOnce, totalPoints_eq_sum_present]
  · simp [getUserPointsRun, getUserPointsGo, MAX_RETRIES,
      totalPoints_eq_sum_present]

theorem foldl_append_map (f : Nat → Char) :
    ∀ (n : Nat) (init : List Char),
      (List.range n).foldl (fun acc i => acc ++ [f i]) init =
        init ++ (List.range n).map f := by
  intro n
  induction n with
  | zero => intro init; simp
  | succ n ih => intro init; simp [List.range_succ, List.foldl_append, ih]

theorem hexChar_mem (k : Fin 16) :
    hexDigits.toList.contains (hexChar k) = true := by
  revert k; decide

/-- C7: every session identity is a 24-character string made of the fixed
2-character head `67` followed by exactly 22 characters drawn from the
lowercase hexadecimal alphabet; the generator is a pure function of the
random draws, with no other state and no failure mode. -/
theorem generateAppId_format (rand : Nat → Fin 16) :
    (generateAppIdChars rand).length = 24 ∧
    (generateAppIdChars rand).take 2 = ['6', '7'] ∧
    ((generateAppIdChars rand).drop 2).all
      (fun c => hexDigits.toList.contains c) = true ∧
    (generateAppId rand).length = 24 := by
  have hg : generateAppIdChars rand =
      ['6', '7'] ++ (List.range 22).map (fun i => hexChar (rand i)) := by
    simp [generateAppIdChars, foldl_append_map]
  refine ⟨?_, ?_, ?_, ?_⟩
  · rw [hg]; simp
  · rw [hg]; rfl
  · rw [hg]
    have hdrop : (['6', '7'] ++
        (List.range 22).map (fun i => hexChar (rand i))).drop 2 =
        (List.range 22).map (fun i => hexChar (rand i)) := rfl
    rw [hdrop, List.all_eq_true]
    intro c hc
    rw [List.mem_map] at hc
    obtain ⟨i, _, rfl⟩ := hc
    exact hexChar_mem (rand i)
  · show (String.mk (generateAppIdChars rand)).length = 24
    rw [show ∀ l : List Char, (String.mk l).length = l.length from fun _ => rfl,
      hg]
    simp

theorem splitCh_eq_cons (sep : Char) (l : List Char) :
    splitCh sep l =
      l.takeWhile (fun c => c != sep) ::
        (if sep ∈ l then splitCh sep ((l.dropWhile (fun c => c != sep)).tail)
         else []) := by
  induction l with
  | nil => simp [splitCh]
  | cons c cs ih =>
    by_cases hc : c = sep
    · subst hc
      simp [splitCh, List.takeWhile_cons, List.dropWhile_cons]
    · have hne : (c != sep) = true := by simp [hc]
      rw [splitCh]
      simp only [if_neg hc, ih, List.takeWhile_cons, List.dropWhile_cons, hne,
        if_pos rfl, List.mem_cons]
      have hmem : (sep ∈ [c] ++ cs) ↔ sep ∈ cs := by
        simp [eq_comm, hc, Ne.symm hc]
      by_cases hm : sep ∈ cs <;> simp [hm, hc, Ne.symm hc]

theorem splitCh_headD (sep : Char) (l : List Char) :
    (splitCh sep l).headD [] = l.takeWhile (fun c => c != sep) := by
  rw [splitCh_eq_cons]; rfl

theorem splitCh_getD_one (sep : Char) (l : List Char) (h : sep ∈ l) :
    (splitCh sep l).getD 1 [] =
      ((l.dropWhile (fun c => c != sep)).tail).takeWhile (fun c => c != sep) := by
  rw [splitCh_eq_cons, if_pos h, List.getD_cons_succ, splitCh_eq_cons,
    List.getD_cons_zero]

theorem parseCredLine_spec (l : List Char) (h : l.contains ':' = true) :
    parseCredLine l =
      (trimCh (l.takeWhile (fun c => c != ':')),
       trimCh (((l.dropWhile (fun c => c != ':')).tail).takeWhile
         (fun c => c != ':'))) := by
  have hmem : (':' : Char) ∈ l := List.elem_iff.mp h
  show (trimCh ((splitCh ':' l).headD []), trimCh ((splitCh ':' l).getD 1 [])) = _
  rw [splitCh_headD, splitCh_getD_one _ _ hmem]

/-- C10: the credential parser drops every line without a colon; on a kept
line the identifier is the trimmed text before the first colon and the secret
is the trimmed text between the first and the second colon, so any text after
a second colon is silently discarded. -/
theorem readCredentials_spec (content : List Char) :
    readCredentials content = (splitCh '\n' content).filterMap specCredLine := by
  unfold readCredentials
  induction splitCh '\n' content with
  | nil => rfl
  | cons raw rest ih =>
    rw [List.map_cons, List.filter_cons]
    by_cases hc : (trimCh raw).contains ':' = true
    · have hspec : specCredLine raw = some (parseCredLine (trimCh raw)) := by
        simp [specCredLine, List.elem_iff.mp hc, parseCredLine_spec _ hc]
      rw [hc, if_pos rfl, List.map_cons, List.filterMap_cons, hspec]
      exact congrArg (List.cons (parseCredLine (trimCh raw))) ih
    · have hcf : (trimCh raw).contains ':' = false := by
        revert hc; cases (trimCh raw).contains ':' <;> simp
      have hnm : ¬ ((':' : Char) ∈ trimCh raw) :=
        fun hm => hc (List.elem_iff.mpr hm)
      have hspec : specCredLine raw = none := by simp [specCredLine, hnm]
      rw [hcf, if_neg (by simp), List.filterMap_cons, hspec]
      exact ih

theorem runProxyCalls_enabled (pool : List String) (hK : 0 < pool.length) :
    ∀ (M c : Nat), c < pool.length →
      runProxyCalls ⟨true, pool, c⟩ M =
        ((List.range M).map
          (fun i => mkProxyAgent (pool.getD ((c + i) % pool.length) "")),
         ⟨true, pool, (c + M) % pool.length⟩) := by
  intro M
  induction M with
  | zero =>
    intro c hc
    simp [runProxyCalls, Nat.mod_eq_of_lt hc]
  | succ M ih =>
    intro c hc
    have hKne : (pool.length == 0) = false := by
      simp [Nat.pos_iff_ne_zero.mp hK]
    have hget : pool[c]? = some (pool.getD c "") := by
      rw [List.getD_eq_getElem?_getD, List.getElem?_eq_getElem hc,
        Option.getD_some]
    have hone : getProxyAgent ⟨true, pool, c⟩ =
        (mkProxyAgent (pool.getD c ""),
         ⟨true, pool, (c + 1) % pool.length⟩) := by
      simp only [getProxyAgent, Bool.not_true, Bool.false_or, hKne,
        Bool.false_eq_true, if_false, List.get?_eq_getElem?, hget]
    have hc1 : (c + 1) % pool.length < pool.length := Nat.mod_lt _ hK
    have hrec := ih ((c + 1) % pool.length) hc1
    simp only [runProxyCalls, hone, hrec]
    rw [Prod.mk.injEq]
    constructor
    · rw [List.range_succ_eq_map, List.map_cons, List.map_map]
      have h0 : (c + 0) % pool.length = c := by
        rw [Nat.add_zero, Nat.mod_eq_of_lt hc]
      rw [h0]
      refine congrArg (mkProxyAgent (pool.getD c "") :: ·) ?_
      refine List.map_congr_left ?_
      intro i _
      simp only [Function.comp]
      rw [Nat.mod_add_mod,
        show c + 1 + i = c + Nat.succ i from by omega]
    · rw [Nat.mod_add_mod,
        show c + 1 + M = c + (M + 1) from by omega]

theorem runProxyCalls_disabled (pool : List String) :
    ∀ (M c : Nat),
      runProxyCalls ⟨false, pool, c⟩ M =
        (List.replicate M ProxyAgent.direct, ⟨false, pool, c⟩) := by
  intro M
  induction M with
  | zero => intro c; simp [runProxyCalls]
  | succ M ih =>
    intro c; simp [runProxyCalls, getProxyAgent, ih, List.replicate_succ]

theorem runProxyCalls_empty :
    ∀ (M c : Nat),
      runProxyCalls ⟨true, [], c⟩ M =
        (List.replicate M ProxyAgent.direct, ⟨true, [], c⟩) := by
  intro M
  induction M with
  | zero => intro c; simp [runProxyCalls]
  | succ M ih =>
    intro c; simp [runProxyCalls, getProxyAgent, ih, List.replicate_succ]

/-- C4: with proxying enabled and a non-empty pool, M sequential rotator
calls starting at cursor 0 return the pool entries in strict round-robin
order (the i-th call yields the agent built from the entry at index i modulo
the pool size, the cursor advancing modulo the size on each call); with
proxying disabled or an empty pool, every call returns the direct
connection. -/
theorem proxy_rotator_round_robin (pool : List String) (c M : Nat) :
    (0 < pool.length →
      runProxyCalls ⟨true, pool, 0⟩ M =
        ((List.range M).map
          (fun i => mkProxyAgent (pool.getD (i % pool.length) "")),
         ⟨true, pool, M % pool.length⟩)) ∧
    (runProxyCalls ⟨false, pool, c⟩ M).1 = List.replicate M ProxyAgent.direct ∧
    (runProxyCalls ⟨true, [], c⟩ M).1 = List.replicate M ProxyAgent.direct := by
  refine ⟨fun hK => ?_, ?_, ?_⟩
  · have h := runProxyCalls_enabled pool hK M 0 hK
    simpa using h
  · rw [runProxyCalls_disabled pool M c]
  · rw [runProxyCalls_empty M c]

/-- Closed instance of C4: three rotator calls over the concrete two-entry
pool return HTTP proxy 1, SOCKS proxy 2, HTTP proxy 1. -/
theorem proxy_rotator_round_robin_witness :
    0 < poolW.length ∧
    (runProxyCalls ⟨true, poolW, 0⟩ 3).1 =
      [ProxyAgent.https "http://p1:8080", ProxyAgent.socks "socks5://p2:1080",
       ProxyAgent.https "http://p1:8080"] := by
  refine ⟨by decide, ?_⟩
  rw [congrArg Prod.fst ((proxy_rotator_round_robin poolW 0 3).1 (by decide))]
  decide

/-- Counterexample to C3 as stated: on an always-failing points query the
retried points operation of the proxy variant performs its 3 attempts with
the two linear-backoff sleeps, but then returns 0 — the final error does not
propagate to the caller. -/
theorem points_final_failure_swallowed :
    getUserPointsRun pointsFailEnv = (Except.ok 0, [1000, 2000]) ∧
    (getUserPointsRun pointsFailEnv).1.isOk = true := ⟨rfl, rfl⟩

/-- C3 (amended): each of the four remote sub-operations is retried up to
exactly 3 attempts, sleeping 1000·attempt ms between consecutive attempts
(2000·attempt ms for the captcha-solving call); on the failure of the 3rd
attempt the puzzle-id, puzzle-image and captcha-solving operations propagate
the wrapped error to the caller, while the points query swallows the final
error and returns 0. -/
theorem subrequest_retry_policy
    (envA envB envC : Nat → Except String String)
    (envP : Nat → Except String PointsResponse)
    (e1 e2 e3 v : String) :
    (envA 1 = Except.error e1 → envA 2 = Except.error e2 →
      envA 3 = Except.error e3 →
      getPuzzleIdRun envA =
        (Except.error ("Failed to get puzzle ID after 3 attempts: " ++ e3),
         [1000, 2000])) ∧
    (envA 1 = Except.error e1 → envA 2 = Except.ok v →
      getPuzzleIdRun envA = (Except.ok v, [1000])) ∧
    (envA 1 = Except.ok v → getPuzzleIdRun envA = (Except.ok v, [])) ∧
    (envB 1 = Except.error e1 → envB 2 = Except.error e2 →
      envB 3 = Except.error e3 →
      getPuzzleImageRun envB =
        (Except.error ("Failed to get puzzle image after 3 attempts: " ++ e3),
         [1000, 2000])) ∧
    (envC 1 = Except.error e1 → envC 2 = Except.error e2 →
      envC 3 = Except.error e3 →
      processCaptchaRunV3 envC =
        (Except.error ("Failed to solve captcha after 3 attempts: " ++ e3),
         [2000, 4000])) ∧
    ((∀ k, 1 ≤ k → k ≤ 3 → ∃ e, envP k = Except.error e) →
      getUserPointsRun envP = (Except.ok 0, [1000, 2000])) := by
  refine ⟨?_, ?_, ?_, ?_, ?_, ?_⟩
  · intro h1 h2 h3
    simp [getPuzzleIdRun, boundedRetryGo, MAX_RETRIES, h1, h2, h3]
  · intro h1 h2
    simp [getPuzzleIdRun, boundedRetryGo, MAX_RETRIES, h1, h2]
  · intro h1
    simp [getPuzzleIdRun, boundedRetryGo, MAX_RETRIES, h1]
  · intro h1 h2 h3
    simp [getPuzzleImageRun, boundedRetryGo, MAX_RETRIES, h1, h2, h3]
  · intro h1 h2 h3
    simp [processCaptchaRunV3, boundedRetryGo, MAX_RETRIES, h1, h2, h3]
  · intro hp
    obtain ⟨f1, h1⟩ := hp 1 (by omega) (by omega)
    obtain ⟨f2, h2⟩ := hp 2 (by omega) (by omega)
    obtain ⟨f3, h3⟩ := hp 3 (by omega) (by omega)
    simp [getUserPointsRun, getUserPointsGo, MAX_RETRIES, h1, h2, h3]

/-- Closed instance of C3 (amended): concrete runs of the retried
sub-operations with an always-failing stream, a succeed-on-second-try stream
and an always-failing points stream. -/
theorem subrequest_retry_policy_witness :
    getPuzzleIdRun subFailEnv =
      (Except.error "Failed to get puzzle ID after 3 attempts: net down",
       [1000, 2000]) ∧
    getPuzzleIdRun subOkAt2Env = (Except.ok "P-123", [1000]) ∧
    processCaptchaRunV3 subFailEnv =
      (Except.error "Failed to solve captcha after 3 attempts: net down",
       [2000, 4000]) ∧
    getUserPointsRun pointsFailEnv = (Except.ok 0, [1000, 2000]) := by
  refine ⟨?_, ?_, ?_, ?_⟩
  · exact (subrequest_retry_policy subFailEnv subFailEnv subFailEnv
      pointsFailEnv "net down" "net down" "net down" "x").1 rfl rfl rfl
  · exact (subrequest_retry_policy subOkAt2Env subFailEnv subFailEnv
      pointsFailEnv "net down" "net down" "net down" "P-123").2.1 rfl rfl
  · exact (subrequest_retry_policy subFailEnv subFailEnv subFailEnv
      pointsFailEnv "net down" "net down" "net down" "x").2.2.2.2.1 rfl rfl rfl
  · exact (subrequest_retry_policy subFailEnv subFailEnv subFailEnv
      pointsFailEnv "net down" "net down" "net down" "x").2.2.2.2.2
      (fun k _ _ => ⟨"HTTP error! status: 500", rfl⟩)

/-- C1: the orchestrator appends exactly one terminal record to exactly one
of the two result logs per account, both in the bounded-retry proxy variant
and in the single-attempt first variant; and under the bounded budget of 3
with every attempt failing, exactly 3 attempts run, one failure line and no
success line is written. -/
theorem orchestrator_one_terminal_record (email password : String)
    (env : Nat → AttemptEnvV3) (envOne : AttemptEnvV1) :
    (((loginAccountV3 email password env).2.successLines.length = 1 ∧
      (loginAccountV3 email password env).2.failLines.length = 0) ∨
     ((loginAccountV3 email password env).2.successLines.length = 0 ∧
      (loginAccountV3 email password env).2.failLines.length = 1)) ∧
    (((loginAccountV1 email password envOne).2.successLines.length = 1 ∧
      (loginAccountV1 email password envOne).2.failLines.length = 0) ∨
     ((loginAccountV1 email password envOne).2.successLines.length = 0 ∧
      (loginAccountV1 email password envOne).2.failLines.length = 1)) ∧
    ((∀ k, 1 ≤ k → k ≤ LOGIN_RETRIES →
        ∃ e, attemptRunV3 (env k) = Except.error e) →
      (loginAccountV3 email password env).1 = false ∧
      (loginAccountV3 email password env).2.attempts = 3 ∧
      (loginAccountV3 email password env).2.successLines.length = 0 ∧
      (loginAccountV3 email password env).2.failLines.length = 1) := by
  refine ⟨?_, ?_, ?_⟩
  · cases h1 : attemptRunV3 (env 1) with
    | ok v1 =>
      left; simp [loginAccountV3, loginAccountV3Go, LOGIN_RETRIES, h1]
    | error e1 =>
      cases h2 : attemptRunV3 (env 2) with
      | ok v2 =>
        left; simp [loginAccountV3, loginAccountV3Go, LOGIN_RETRIES, h1, h2]
      | error e2 =>
        cases h3 : attemptRunV3 (env 3) with
        | ok v3 =>
          left; simp [loginAccountV3, loginAccountV3Go, LOGIN_RETRIES, h1, h2, h3]
        | error e3 =>
          right; simp [loginAccountV3, loginAccountV3Go, LOGIN_RETRIES, h1, h2, h3]
  · cases h1 : attemptRunV1 envOne with
    | ok v1 => left; simp [loginAccountV1, h1]
    | error e1 => right; simp [loginAccountV1, h1]
  · intro hfail
    obtain ⟨e1, h1⟩ := hfail 1 (by omega) (by simp [LOGIN_RETRIES])
    obtain ⟨e2, h2⟩ := hfail 2 (by omega) (by simp [LOGIN_RETRIES])
    obtain ⟨e3, h3⟩ := hfail 3 (by omega) (by simp [LOGIN_RETRIES])
    simp [loginAccountV3, loginAccountV3Go, LOGIN_RETRIES, h1, h2, h3]

/-- Closed instance of C1: the all-failing proxy-variant account makes
exactly 3 attempts, writes one failure line and no success line. -/
theorem orchestrator_one_terminal_record_witness :
    (loginAccountV3 "a@x.com" "pw" envAllFailV3).1 = false ∧
    (loginAccountV3 "a@x.com" "pw" envAllFailV3).2.attempts = 3 ∧
    (loginAccountV3 "a@x.com" "pw" envAllFailV3).2.successLines.length = 0 ∧
    (loginAccountV3 "a@x.com" "pw" envAllFailV3).2.failLines.length = 1 := by
  exact (orchestrator_one_terminal_record "a@x.com" "pw" envAllFailV3
    envFailV1).2.2
    (fun k _ _ => ⟨"Failed to get puzzle ID after 3 attempts: net down", rfl⟩)

/-- C6: a failing points query yields zero points and never fails the login:
the single-try points query returns 0 on any thrown error and on any
non-success response, and the proxy-variant orchestrator still records the
account as a success with 0 points when a login token was obtained while the
points query kept failing. -/
theorem points_failure_isolation (email password : String)
    (env : Nat → AttemptEnvV3) (e0 : String) (d : PointsData)
    (pid img ans tok : String) (m : Option String) :
    getUserPointsOnce (Except.error e0) = 0 ∧
    getUserPointsOnce (Except.ok ⟨false, d⟩) = 0 ∧
    ((env 1).puzzleId 1 = Except.ok pid →
     (env 1).puzzleImage 1 = Except.ok img →
     (env 1).captcha 1 = Except.ok ans →
     (env 1).login = Except.ok ⟨true, some tok, m⟩ →
     (∀ k, ∃ e, (env 1).points k = Except.error e) →
     attemptRunV3 (env 1) = Except.ok (tok, 0) ∧
     loginAccountV3 email password env =
       (true, ⟨1, [email ++ ":" ++ password ++ ":" ++ tok ++ ":" ++
         toString (0 : Int)], [], []⟩)) := by
  refine ⟨rfl, rfl, ?_⟩
  intro hpid himg hans hlog hp
  obtain ⟨f1, h1⟩ := hp 1
  obtain ⟨f2, h2⟩ := hp 2
  obtain ⟨f3, h3⟩ := hp 3
  have hrun : attemptRunV3 (env 1) = Except.ok (tok, 0) := by
    simp [attemptRunV3, getPuzzleIdRun, getPuzzleImageRun, processCaptchaRunV3,
      getUserPointsRun, boundedRetryGo, getUserPointsGo, MAX_RETRIES,
      hpid, himg, hans, hlog, h1, h2, h3]
  refine ⟨hrun, ?_⟩
  simp [loginAccountV3, loginAccountV3Go, LOGIN_RETRIES, hrun]

/-- Closed instance of C6: the concrete environment with a working login and
an always-failing points query is recorded as a success with 0 points. -/
theorem points_failure_isolation_witness :
    attemptRunV3 (envPointsDownV3 1) = Except.ok ("TOK", 0) ∧
    loginAccountV3 "a@x.com" "pw" envPointsDownV3 =
      (true, ⟨1, ["a@x.com" ++ ":" ++ "pw" ++ ":" ++ "TOK" ++ ":" ++
        toString (0 : Int)], [], []⟩) := by
  exact (points_failure_isolation "a@x.com" "pw" envPointsDownV3 "e"
    ⟨none, none⟩ "P-1" "IMG" "1234" "TOK" none).2.2 rfl rfl rfl rfl
    (fun k => ⟨"HTTP error! status: 500", rfl⟩)

/-- Counterexample to C8 as stated: the manual local-entry backend returns
the typed text verbatim, so a prompt answer with surrounding whitespace
reaches the caller untrimmed. -/
theorem manual_backend_untrimmed :
    processCaptchaV4 SolverModelV4.manual manualEnvUntrimmed =
      Except.ok " 1234 " ∧
    strTrim " 1234 " ≠ " 1234 " := by
  exact ⟨rfl, by decide⟩

/-- C8 (amended): the human-relay and generative-vision backends return the
trimmed backend response; the manual local-entry and hosted-service backends
return the backend response verbatim, untrimmed.  No backend changes the
case of its response. -/
theorem solver_backend_output_shape (env : SolverEnvV4) (envOne : SolverEnvV1)
    (t : String) :
    (processCaptchaV4 SolverModelV4.manual env = Except.ok t →
      t = env.manualInput) ∧
    (processCaptchaV4 SolverModelV4.twocaptcha env = Except.ok t →
      env.twocaptchaResult = Except.ok t) ∧
    (processCaptchaV4 SolverModelV4.telegram env = Except.ok t →
      ∃ r, env.telegramReply = some r ∧ t = strTrim r) ∧
    (processCaptchaV4 SolverModelV4.gemini env = Except.ok t →
      ∃ r, env.geminiText = Except.ok r ∧ t = strTrim r) ∧
    (processCaptchaV1 SolverModelV1.manual envOne = Except.ok t →
      t = envOne.manualInput) ∧
    (processCaptchaV1 SolverModelV1.twocaptcha envOne = Except.ok t →
      envOne.twocaptchaResult = Except.ok t) ∧
    (processCaptchaV1 SolverModelV1.anticaptcha envOne = Except.ok t →
      envOne.anticaptchaResult = Except.ok t) := by
  refine ⟨?_, ?_, ?_, ?_, ?_, ?_, ?_⟩
  · intro h
    cases hs : env.save with
    | error e => simp [processCaptchaV4, hs] at h
    | ok u => simp [processCaptchaV4, hs] at h; exact h.symm
  · intro h
    cases hc : env.twocaptchaResult with
    | error e => simp [processCaptchaV4, hc] at h
    | ok d => simp [processCaptchaV4, hc] at h; rw [h]
  · intro h
    cases hs : env.save with
    | error e => simp [processCaptchaV4, hs] at h
    | ok u =>
      cases hr : env.telegramReply with
      | none => simp [processCaptchaV4, hs, hr] at h
      | some r =>
        simp [processCaptchaV4, hs, hr] at h
        exact ⟨r, rfl, h.symm⟩
  · intro h
    cases hs : env.save with
    | error e => simp [processCaptchaV4, hs] at h
    | ok u =>
      cases hg : env.geminiText with
      | error e => simp [processCaptchaV4, hs, hg] at h
      | ok r =>
        simp [processCaptchaV4, hs, hg] at h
        exact ⟨r, rfl, h.symm⟩
  · intro h
    cases hs : envOne.save with
    | error e => simp [processCaptchaV1, hs] at h
    | ok u => simp [processCaptchaV1, hs] at h; exact h.symm
  · intro h
    cases hc : envOne.twocaptchaResult with
    | error e => simp [processCaptchaV1, hc] at h
    | ok d => simp [processCaptchaV1, hc] at h; rw [h]
  · intro h
    cases hc : envOne.anticaptchaResult with
    | error e => simp [processCaptchaV1, hc] at h
    | ok d => simp [processCaptchaV1, hc] at h; rw [h]

/-- Closed instance of C8 (amended): the manual backend hands back the typed
answer verbatim and the first-variant hosted-service backend hands back the
service result verbatim. -/
theorem solver_backend_output_shape_witness :
    "1234" = solverEnvOkManual.manualInput ∧
    solverEnvV1W.twocaptchaResult = Except.ok "9876" := by
  constructor
  · exact (solver_backend_output_shape solverEnvOkManual solverEnvV1W
      "1234").1 rfl
  · exact (solver_backend_output_shape solverEnvOkManual solverEnvV1W
      "9876").2.2.2.2.2.1 rfl

theorem countP_add_countP_not (p : α → Bool) :
    ∀ l : List α, l.countP p + l.countP (fun a => !p a) = l.length := by
  intro l
  induction l with
  | nil => rfl
  | cons a l ih =>
    cases ha : p a <;>
      simp [List.countP_cons, ha, ← ih] <;> omega

theorem batchGoV1_spec (orc : String × String → Bool) :
    ∀ (rest : List (String × String)) (log : BatchLog),
      batchGoV1 orc rest log =
        ⟨log.processed ++ rest.map Prod.fst,
         log.successful + rest.countP orc,
         log.failed + rest.countP (fun c => !orc c),
         log.pauses ++ List.replicate rest.length 2000⟩ := by
  intro rest
  induction rest with
  | nil => intro log; simp [batchGoV1]
  | cons cred rest ih =>
    intro log
    cases hr : orc cred <;>
      simp [batchGoV1, hr, ih, List.countP_cons, List.replicate_succ,
        BatchLog.mk.injEq, List.append_assoc] <;>
      omega

theorem batchGoV4_spec (orc : String × String → Bool) (total : Nat) :
    ∀ (rest : List (String × String)) (idx : Nat) (log : BatchLog),
      idx + rest.length = total →
      batchGoV4 orc total idx rest log =
        ⟨log.processed ++ rest.map Prod.fst,
         log.successful + rest.countP orc,
         log.failed + rest.countP (fun c => !orc c),
         log.pauses ++ List.replicate (rest.length - 1) 2000⟩ := by
  intro rest
  induction rest with
  | nil => intro idx log _; simp [batchGoV4]
  | cons cred rest ih =>
    intro idx log h
    cases rest with
    | nil =>
      have hidx : ¬ (idx < total - 1) := by
        simp at h; omega
      cases hr : orc cred <;>
        simp [batchGoV4, hr, hidx, List.countP_cons, BatchLog.mk.injEq]
    | cons d rest2 =>
      have hidx : idx < total - 1 := by
        simp at h; omega
      have h2 : (idx + 1) + (d :: rest2).length = total := by
        simp at h ⊢; omega
      rw [batchGoV4]
      simp only [if_pos hidx]
      rw [ih _ _ h2]
      cases hr : orc cred <;>
        simp [hr, List.countP_cons, List.replicate_succ, BatchLog.mk.injEq,
          List.append_assoc, List.length_cons] <;>
        omega

/-- C9 (amended): every batch runner processes the account list strictly in
order, one account at a time, and continues to the next account after any
terminal outcome (the success and failure counters always sum to the number
of accounts); the fourth variant inserts exactly one 2000 ms pause after each
account except the last, while the first three variants insert the pause
after every account, the last included. -/
theorem batch_runner_sequencing (creds : List (String × String))
    (orc : String × String → Bool) :
    (batchRunV4 creds orc).processed = creds.map Prod.fst ∧
    (batchRunV4 creds orc).successful + (batchRunV4 creds orc).failed =
      creds.length ∧
    (batchRunV4 creds orc).pauses = List.replicate (creds.length - 1) 2000 ∧
    (batchRunV1 creds orc).processed = creds.map Prod.fst ∧
    (batchRunV1 creds orc).successful + (batchRunV1 creds orc).failed =
      creds.length ∧
    (batchRunV1 creds orc).pauses = List.replicate creds.length 2000 := by
  have h4 := batchGoV4_spec orc creds.length creds 0 ⟨[], 0, 0, []⟩ (by simp)
  have h1 := batchGoV1_spec orc creds ⟨[], 0, 0, []⟩
  unfold batchRunV4 batchRunV1
  rw [h4, h1]
  simp [countP_add_countP_not]

/-- Counterexample to C9 as stated: the first-variant batch runner pauses
after its only account — one 2000 ms pause for a single-account list, where
the claim requires no pause after the last account. -/
theorem batch_pause_after_last_account :
    (batchRunV1 [("a@x.com", "pw")] (fun _ => true)).pauses = [2000] ∧
    (batchRunV1 [("a@x.com", "pw")] (fun _ => true)).pauses ≠ [] := by
  exact ⟨rfl, by decide⟩

theorem withRetry_first_success (email password : String)
    (env : Nat → AttemptEnvV4) (tok : String) (pts : Int) :
    ∀ (m a : Nat) (tr : TraceV4) (fuel : Nat),
      (∀ j, j < m → ∃ e, attemptRunV4 (env (a + j)) = Except.error e) →
      attemptRunV4 (env (a + m)) = Except.ok (tok, pts) →
      m < fuel →
      loginAccountWithRetryGo email password env a tr fuel =
        some (true,
          { successLines := tr.successLines ++ [email ++ ":" ++ tok],
            failLines := tr.failLines,
            delaysMs := tr.delaysMs ++
              (List.range m).map (fun j => calculateRetryDelay (a + j)),
            notifs := tr.notifs ++
              ((List.range m).map (fun j =>
                [NotifV4.attemptStart (a + j), NotifV4.failed (a + j),
                 NotifV4.waiting (a + j)])).flatten ++
              [NotifV4.attemptStart (a + m),
               NotifV4.succeeded (a + m) pts] }) := by
  intro m
  induction m with
  | zero =>
    intro a tr fuel _ hok hfuel
    obtain ⟨f, rfl⟩ : ∃ f, fuel = f + 1 := ⟨fuel - 1, by omega⟩
    rw [Nat.add_zero] at hok
    rw [loginAccountWithRetryGo, hok]
    simp [List.append_assoc]
  | succ m ih =>
    intro a tr fuel hfail hok hfuel
    obtain ⟨f, rfl⟩ : ∃ f, fuel = f + 1 := ⟨fuel - 1, by omega⟩
    obtain ⟨e, he⟩ := hfail 0 (Nat.succ_pos m)
    rw [Nat.add_zero] at he
    rw [loginAccountWithRetryGo, he]
    have hfail2 : ∀ j, j < m →
        ∃ e, attemptRunV4 (env (a + 1 + j)) = Except.error e := by
      intro j hj
      have hx := hfail (j + 1) (by omega)
      rwa [show a + (j + 1) = a + 1 + j from by omega] at hx
    have hok2 : attemptRunV4 (env (a + 1 + m)) = Except.ok (tok, pts) := by
      rwa [show a + 1 + m = a + (m + 1) from by omega]
    rw [ih (a + 1) _ f hfail2 hok2 (by omega)]
    have hsucc : a + (m + 1) = a + 1 + m := by omega
    have hd : (List.range (m + 1)).map (fun j => calculateRetryDelay (a + j)) =
        calculateRetryDelay a ::
          (List.range m).map (fun j => calculateRetryDelay (a + 1 + j)) := by
      rw [List.range_succ_eq_map, List.map_cons, List.map_map, Nat.add_zero]
      refine congrArg (calculateRetryDelay a :: ·) ?_
      refine List.map_congr_left ?_
      intro j _
      simp only [Function.comp]
      rw [show a + Nat.succ j = a + 1 + j from by omega]
    have hn : (List.range (m + 1)).map (fun j =>
          [NotifV4.attemptStart (a + j), NotifV4.failed (a + j),
           NotifV4.waiting (a + j)]) =
        [NotifV4.attemptStart a, NotifV4.failed a, NotifV4.waiting a] ::
          (List.range m).map (fun j =>
            [NotifV4.attemptStart (a + 1 + j), NotifV4.failed (a + 1 + j),
             NotifV4.waiting (a + 1 + j)]) := by
      rw [List.range_succ_eq_map, List.map_cons, List.map_map, Nat.add_zero]
      refine congrArg _ ?_
      refine List.map_congr_left ?_
      intro j _
      simp only [Function.comp]
      rw [show a + Nat.succ j = a + 1 + j from by omega]
    rw [hsucc, hd, hn]
    simp [List.append_assoc, List.flatten_cons]

/-- C2: under the unbounded policy the delay inserted after failed attempt k
(before attempt k+1) equals 5000·1.5^(k-1) ms; the orchestrator never
records a FAILURE line and terminates only by reaching success (every
terminating run returns true, appends exactly one success line and leaves the
failure log untouched); and it emits a status notification for every attempt
and for every wait period. -/
theorem unbounded_retry_policy (email password : String)
    (env : Nat → AttemptEnvV4) :
    (∀ k, calculateRetryDelay k = 5000 * (1.5 : ℚ) ^ (k - 1)) ∧
    (∀ fuel attempt tr b trOut,
      loginAccountWithRetryGo email password env attempt tr fuel =
        some (b, trOut) →
      b = true ∧ trOut.failLines = tr.failLines ∧
      trOut.successLines.length = tr.successLines.length + 1) ∧
    (∀ N tok pts, 1 ≤ N →
      (∀ k, 1 ≤ k → k < N → ∃ e, attemptRunV4 (env k) = Except.error e) →
      attemptRunV4 (env N) = Except.ok (tok, pts) →
      ∀ fuel, N ≤ fuel →
      loginAccountWithRetryGo email password env 1 ⟨[], [], [], []⟩ fuel =
        some (true,
          { successLines := [email ++ ":" ++ tok],
            failLines := [],
            delaysMs := (List.range (N - 1)).map
              (fun j => calculateRetryDelay (j + 1)),
            notifs := ((List.range (N - 1)).map (fun j =>
                [NotifV4.attemptStart (j + 1), NotifV4.failed (j + 1),
                 NotifV4.waiting (j + 1)])).flatten ++
              [NotifV4.attemptStart N, NotifV4.succeeded N pts] })) := by
  refine ⟨?_, ?_, ?_⟩
  · intro k
    unfold calculateRetryDelay INITIAL_RETRY_DELAY
    norm_num
  · intro fuel
    induction fuel with
    | zero =>
      intro attempt tr b trOut h
      simp [loginAccountWithRetryGo] at h
    | succ f ih =>
      intro attempt tr b trOut h
      rw [loginAccountWithRetryGo] at h
      cases hr : attemptRunV4 (env attempt) with
      | ok v =>
        obtain ⟨tok, pts⟩ := v
        rw [hr] at h
        simp only [Option.some.injEq, Prod.mk.injEq] at h
        obtain ⟨hb, htr⟩ := h
        subst hb
        refine ⟨rfl, ?_, ?_⟩
        · rw [← htr]
        · rw [← htr]; simp
      | error e =>
        rw [hr] at h
        have hr2 := ih _ _ _ _ h
        exact ⟨hr2.1, hr2.2.1, hr2.2.2⟩
  · intro N tok pts hN hfail hok fuel hfuel
    have hm : attemptRunV4 (env (1 + (N - 1))) = Except.ok (tok, pts) := by
      rwa [show 1 + (N - 1) = N from by omega]
    have hf : ∀ j, j < N - 1 →
        ∃ e, attemptRunV4 (env (1 + j)) = Except.error e := by
      intro j hj
      exact hfail (1 + j) (by omega) (by omega)
    have hrun := withRetry_first_success email password env tok pts (N - 1) 1
      ⟨[], [], [], []⟩ fuel hf hm (by omega)
    rw [hrun]
    have h1N : 1 + (N - 1) = N := by omega
    have hd : (List.range (N - 1)).map (fun j => calculateRetryDelay (1 + j)) =
        (List.range (N - 1)).map (fun j => calculateRetryDelay (j + 1)) :=
      List.map_congr_left (fun j _ => by rw [Nat.add_comm])
    have hn : (List.range (N - 1)).map (fun j =>
          [NotifV4.attemptStart (1 + j), NotifV4.failed (1 + j),
           NotifV4.waiting (1 + j)]) =
        (List.range (N - 1)).map (fun j =>
          [NotifV4.attemptStart (j + 1), NotifV4.failed (j + 1),
           NotifV4.waiting (j + 1)]) :=
      List.map_congr_left (fun j _ => by rw [Nat.add_comm])
    rw [h1N, hd, hn]
    simp

/-- Closed instance of C2: with the concrete environment failing on attempt 1
and succeeding on attempt 2, the unbounded orchestrator stops at attempt 2
with one success line, an empty failure log, the single delay
5000·1.5^0 = 5000 ms, and the full notification sequence. -/
theorem unbounded_retry_policy_witness :
    loginAccountWithRetryGo "a@x.com" "pw" envSecondTryV4 1 ⟨[], [], [], []⟩ 2 =
      some (true,
        { successLines := ["a@x.com" ++ ":" ++ "TOK"],
          failLines := [],
          delaysMs := [calculateRetryDelay 1],
          notifs := [NotifV4.attemptStart 1, NotifV4.failed 1,
            NotifV4.waiting 1, NotifV4.attemptStart 2,
            NotifV4.succeeded 2 0] }) := by
  have h := (unbounded_retry_policy "a@x.com" "pw" envSecondTryV4).2.2 2 "TOK" 0
    (by omega)
    (fun k h1 h2 =>
      ⟨"Failed to get puzzle ID after 3 attempts: net down", by
        have hk : k = 1 := by omega
        subst hk
        rfl⟩)
    rfl 2 (by omega)
  rw [h]
  rfl
